import Mathlib

/-!
Verification development for the request/response correlation engine of an
Interactive Brokers client wrapper (C++ sources under `include/wrappers` and
`include/data_structures`).  The C++ code is shallowly embedded: `double`
prices become rationals, the `std::unordered_map` dispatch tables become
association lists with unique keys, and the type-erased `std::promise`
channels become explicitly indexed single-write cells.
-/

namespace IBW

/-! ### Association-list maps

Embedding of the `std::unordered_map<int, ...>` tables.  `insertA` models
`operator[]=` (replace-or-add), `eraseA` models `erase`, `lookupA` models
`find`. -/

def lookupA {α : Type} (k : Int) : List (Int × α) → Option α
  | [] => none
  | (k', v) :: t => if k' = k then some v else lookupA k t

def eraseA {α : Type} (k : Int) : List (Int × α) → List (Int × α)
  | [] => []
  | (k', v) :: t => if k' = k then eraseA k t else (k', v) :: eraseA k t

def insertA {α : Type} (k : Int) (v : α) (l : List (Int × α)) : List (Int × α) :=
  (k, v) :: eraseA k l

def containsA {α : Type} (k : Int) (l : List (Int × α)) : Bool :=
  (lookupA k l).isSome

theorem lookupA_eraseA_self {α : Type} (k : Int) (l : List (Int × α)) :
    lookupA k (eraseA k l) = none := by
  induction l with
  | nil => rfl
  | cons p t ih =>
    obtain ⟨k', v⟩ := p
    by_cases h : k' = k
    · simpa [eraseA, h] using ih
    · simpa [eraseA, lookupA, h] using ih

theorem lookupA_insertA_self {α : Type} (k : Int) (v : α) (l : List (Int × α)) :
    lookupA k (insertA k v l) = some v := by
  simp [insertA, lookupA]

theorem containsA_insertA_self {α : Type} (k : Int) (v : α) (l : List (Int × α)) :
    containsA k (insertA k v l) = true := by
  simp [containsA, lookupA_insertA_self]

/-! ### Market snapshot data model (`data_structures/snapshots.h`) -/

/-- `IB::MarketData::PriceType` from `snapshots.h`. -/
inductive PriceType : Type
  | LAST
  | BID
  | ASK
  | SNAPSHOT
  | QUOTES_ONLY
  | GREEKS_ONLY
deriving DecidableEq, Repr

/-- `IB::MarketData::MarketSnapshot` from `snapshots.h`, with `double` fields
embedded as rationals.  Field `openPrice` embeds the C++ field `open`
(a reserved word in Lean). -/
structure MarketSnapshot : Type where
  bid : ℚ := 0
  ask : ℚ := 0
  last : ℚ := 0
  openPrice : ℚ := 0
  close : ℚ := 0
  high : ℚ := 0
  low : ℚ := 0
  impliedVol : ℚ := 0
  delta : ℚ := 0
  gamma : ℚ := 0
  vega : ℚ := 0
  theta : ℚ := 0
  optPrice : ℚ := 0
  undPrice : ℚ := 0
  hasGreeks : Bool := false
  mode : PriceType := PriceType.SNAPSHOT
  fulfilled : Bool := false
  cancelled : Bool := false
  streaming : Bool := false
deriving DecidableEq, Repr

/-- `MarketSnapshot::hasBidAsk`: `bid > 0 && ask > 0`. -/
def MarketSnapshot.hasBidAsk (s : MarketSnapshot) : Bool :=
  decide (s.bid > 0) && decide (s.ask > 0)

/-- `MarketSnapshot::hasGreeksData`:
`hasGreeks && impliedVol > 0 && optPrice > 0 && delta != 0.0`. -/
def MarketSnapshot.hasGreeksData (s : MarketSnapshot) : Bool :=
  s.hasGreeks && decide (s.impliedVol > 0) && decide (s.optPrice > 0)
    && decide (s.delta ≠ 0)

/-- `MarketSnapshot::readyForFulfill`.  The C++ `switch` has cases for
`LAST`, `BID`, `ASK`, `QUOTES_ONLY` and `SNAPSHOT`; `GREEKS_ONLY` has no
case and falls through to `default: return false`. -/
def MarketSnapshot.readyForFulfill (s : MarketSnapshot) : Bool :=
  match s.mode with
  | PriceType.LAST => decide (s.last > 0)
  | PriceType.BID => decide (s.bid > 0)
  | PriceType.ASK => decide (s.ask > 0)
  | PriceType.QUOTES_ONLY => decide (s.bid > 0) && decide (s.ask > 0)
  | PriceType.SNAPSHOT =>
      if s.hasGreeks then decide (s.bid > 0) || decide (s.ask > 0)
      else decide (s.bid > 0) && decide (s.ask > 0)
  | PriceType.GREEKS_ONLY => false

/-! ### Wrapper state (`wrappers/IBWrapperBase.h`, `wrappers/IBBaseWrapper.h`)

A `std::promise`/`std::future` pair becomes a `Channel`: a single-write cell
tagged with the `typeid` of its `ResultType` (the tag models the `std::any`
type erasure; `fulfillPromise` recovers the concrete type by `any_cast` and
a mismatching tag is the `bad_any_cast` path).  Channels live in an
append-only store `channels`, since the shared state of a promise outlives
its `genericPromises` entry (the caller still holds the future after the
map entry is erased); `genericPromises` maps a request id to the index of
its channel. -/

/-- The shared state of one `std::promise`: type tag plus the at-most-once
value cell. -/
structure Channel : Type where
  tyTag : Nat
  value : Option MarketSnapshot := none
deriving DecidableEq, Repr

/-- The `typeid` tag used for promises of type
`std::promise<IB::MarketData::MarketSnapshot>`. -/
def marketSnapshotTag : Nat := 0

/-- The mutable state of an `IBWrapperBase` relevant to the correlation
engine: the id counter, the promise store, the dispatch table, the snapshot
accumulation table, and the outbound `cancelMktData` calls issued so far. -/
structure IBWrapperState : Type where
  nextValidOrderId : Int := 0
  channels : List Channel := []
  genericPromises : List (Int × Nat) := []
  snapshotData : List (Int × MarketSnapshot) := []
  cancelMktDataCalls : List Int := []
deriving DecidableEq, Repr

/-- `IBWrapperBase::createPromise<ResultType>(reqId)`: allocate a fresh
promise/future pair, store the (type-erased) promise under `reqId` via
`operator[]=`, and hand the future (the channel index) back.  There is no
duplicate check: an existing entry for `reqId` is silently replaced. -/
def createPromise (s : IBWrapperState) (reqId : Int) (tyTag : Nat) :
    IBWrapperState × Nat :=
  let idx := s.channels.length
  ({ s with
      channels := s.channels ++ [{ tyTag := tyTag }]
      genericPromises := insertA reqId idx s.genericPromises }, idx)

/-- Outcome of one `fulfillPromise` call.  `delivered` is the success path;
`noPromise` is the `LOG_WARN("No promise for reqId")` early return;
`typeMismatch` is the caught `bad_any_cast`; `alreadySatisfiedThrow` marks
the `std::future_error` that `set_value` would raise on an already
satisfied promise (an exception the C++ code does not catch). -/
inductive FulfillOutcome : Type
  | delivered
  | noPromise
  | typeMismatch
  | alreadySatisfiedThrow
deriving DecidableEq, Repr

/-- `IBWrapperBase::fulfillPromise<ResultType>(reqId, value)`: look the id up
in `genericPromises`; absent ids are a logged no-op; a `bad_any_cast`
(wrong type tag, or an `any` holding something that is not a promise) logs
and returns without erasing; otherwise `set_value` and erase the entry. -/
def fulfillPromise (s : IBWrapperState) (reqId : Int) (tyTag : Nat)
    (v : MarketSnapshot) : IBWrapperState × FulfillOutcome :=
  match lookupA reqId s.genericPromises with
  | none => (s, FulfillOutcome.noPromise)
  | some idx =>
    match s.channels[idx]? with
    | none => (s, FulfillOutcome.typeMismatch)
    | some ch =>
      if ch.tyTag ≠ tyTag then (s, FulfillOutcome.typeMismatch)
      else
        match ch.value with
        | some _ => (s, FulfillOutcome.alreadySatisfiedThrow)
        | none =>
          ({ s with
              channels := s.channels.set idx { ch with value := some v }
              genericPromises := eraseA reqId s.genericPromises },
            FulfillOutcome.delivered)

/-- One `fulfillPromise` call performed by the reader thread while a caller
is blocked inside `getSync`. -/
structure FulfillCall : Type where
  reqId : Int
  tyTag : Nat
  value : MarketSnapshot
deriving DecidableEq, Repr

/-- Result of `IBWrapperBase::getSync`: either the future's value, or the
`throw std::runtime_error("IB request timeout")` taken when
`future.wait_for(5s)` expires. -/
inductive GetSyncOutcome : Type
  | ok (v : MarketSnapshot)
  | timeoutThrow
deriving DecidableEq, Repr

/-- Program-order events of one `getSync` execution. -/
inductive BridgeStep : Type
  | registered (reqId : Int)
  | sent (reqId : Int)
  | readerFulfill (reqId : Int)
deriving DecidableEq, Repr

/-- One run of `getSync`: the final state, the outcome, and the event
trace in program order. -/
structure GetSyncRun : Type where
  finalState : IBWrapperState
  outcome : GetSyncOutcome
  trace : List BridgeStep
deriving DecidableEq, Repr

/-- The state at the moment `getSync` invokes `sendRequest()`: exactly the
state produced by the `createPromise` call on its first line. -/
def getSyncRegistered (s : IBWrapperState) (reqId : Int) (tyTag : Nat) :
    IBWrapperState :=
  (createPromise s reqId tyTag).1

/-- `IBWrapperBase::getSync<ResultType>(ib, reqId, sendRequest)`:
`createPromise`, then `sendRequest()` (an outbound socket call that does
not touch the wrapper state), then a bounded wait.  `duringWait` lists the
`fulfillPromise` calls the reader thread performs while the caller is
blocked; the wait succeeds exactly when the caller's channel got a value,
and otherwise ends in the timeout throw — with no cleanup of the
`genericPromises` entry on either exit. -/
def getSyncW (s : IBWrapperState) (reqId : Int) (tyTag : Nat)
    (duringWait : List FulfillCall) : GetSyncRun :=
  let idx := s.channels.length
  let s1 := getSyncRegistered s reqId tyTag
  let s2 := duringWait.foldl
    (fun st c => (fulfillPromise st c.reqId c.tyTag c.value).1) s1
  let tr := BridgeStep.registered reqId :: BridgeStep.sent reqId ::
    duringWait.map (fun c => BridgeStep.readerFulfill c.reqId)
  match (s2.channels[idx]?).bind Channel.value with
  | some v => ⟨s2, GetSyncOutcome.ok v, tr⟩
  | none => ⟨s2, GetSyncOutcome.timeoutThrow, tr⟩

namespace IBBaseWrapper

/-- Result of `IBBaseWrapper::getSync`: the future's value, or the marker
that the call never returns — this variant calls `fut.get()` with no
bounded wait, so when no delivery ever arrives the caller blocks forever. -/
inductive GetSyncOutcome : Type
  | ok (v : MarketSnapshot)
  | blocksForever
deriving DecidableEq, Repr

/-- `IBBaseWrapper::getSync<ResultType>`: `createPromise`, `sendRequest()`,
then an unbounded `fut.get()`. -/
def getSyncW (s : IBWrapperState) (reqId : Int) (tyTag : Nat)
    (duringWait : List FulfillCall) :
    IBWrapperState × IBBaseWrapper.GetSyncOutcome :=
  let idx := s.channels.length
  let s1 := getSyncRegistered s reqId tyTag
  let s2 := duringWait.foldl
    (fun st c => (fulfillPromise st c.reqId c.tyTag c.value).1) s1
  match (s2.channels[idx]?).bind Channel.value with
  | some v => (s2, IBBaseWrapper.GetSyncOutcome.ok v)
  | none => (s2, IBBaseWrapper.GetSyncOutcome.blocksForever)

/-- `IBBaseWrapper::nextValidId(orderId)`: unconditional assignment
`nextValidOrderId = static_cast<int>(orderId)`. -/
def nextValidId (s : IBWrapperState) (orderId : Int) : IBWrapperState :=
  { s with nextValidOrderId := orderId }

end IBBaseWrapper

/-- `IBWrapperBase::nextValidId(orderId)`: clamp an outdated announcement to
`nextValidOrderId + 1`, else adopt the announced id. -/
def nextValidId (s : IBWrapperState) (orderId : Int) : IBWrapperState :=
  let newId := if orderId ≤ s.nextValidOrderId then s.nextValidOrderId + 1
    else orderId
  { s with nextValidOrderId := newId }

/-- `IBWrapperBase::nextOrderId` (same body in `IBBaseWrapper`):
`return nextValidOrderId++`, the post-increment returning the
pre-increment value. -/
def nextOrderId (s : IBWrapperState) : Int × IBWrapperState :=
  (s.nextValidOrderId, { s with nextValidOrderId := s.nextValidOrderId + 1 })

/-! ### Callback demultiplexer (`IBWrapperBase::tickPrice`,
`IBWrapperBase::tickOptionComputation`) -/

/-- The tick-type cases the `switch` in `tickPrice` distinguishes; `OTHER`
stands for every tick type handled by `default: break`. -/
inductive TickType : Type
  | BID
  | ASK
  | LAST
  | DELAYED_LAST
  | OPEN
  | CLOSE
  | HIGH
  | LOW
  | OTHER
deriving DecidableEq, Repr

/-- The field-update `switch` of `tickPrice` (only reached when
`price > 0`). -/
def tickPriceMerge (snap : MarketSnapshot) (field : TickType) (price : ℚ) :
    MarketSnapshot :=
  match field with
  | TickType.BID => { snap with bid := price }
  | TickType.ASK => { snap with ask := price }
  | TickType.LAST => { snap with last := price }
  | TickType.DELAYED_LAST => { snap with last := price }
  | TickType.OPEN => { snap with openPrice := price }
  | TickType.CLOSE => { snap with close := price }
  | TickType.HIGH => { snap with high := price }
  | TickType.LOW => { snap with low := price }
  | TickType.OTHER => snap

/-- `IBWrapperBase::tickPrice(tickerId, field, price, attrib)`.  Returns the
updated state together with the snapshot value passed to `fulfillPromise`
when the unified readiness check fires (`none` when nothing was
delivered).  Non-positive prices return immediately; unknown ids are
dropped; otherwise the field is merged, and on
`!fulfilled && readyForFulfill()` the `last` price is synthesized as the
bid/ask midpoint when absent, the snapshot is delivered, a one-shot
(non-streaming) request is auto-cancelled, and its `snapshotData` entry is
erased. -/
def tickPrice (s : IBWrapperState) (tickerId : Int) (field : TickType)
    (price : ℚ) : IBWrapperState × Option MarketSnapshot :=
  if price ≤ 0 then (s, none)
  else
    match lookupA tickerId s.snapshotData with
    | none => (s, none)
    | some snap0 =>
      let snap1 := tickPriceMerge snap0 field price
      if !snap1.fulfilled && snap1.readyForFulfill then
        let snap2 :=
          if decide (snap1.last ≤ 0) && snap1.hasBidAsk then
            { snap1 with last := (snap1.bid + snap1.ask) / 2 }
          else snap1
        let snap3 := { snap2 with fulfilled := true }
        let s1 := (fulfillPromise s tickerId marketSnapshotTag snap3).1
        let doCancel := !snap3.streaming && !snap3.cancelled
        let s2 :=
          if doCancel then
            { s1 with cancelMktDataCalls := tickerId :: s1.cancelMktDataCalls }
          else s1
        let snap4 := if doCancel then { snap3 with cancelled := true } else snap3
        let sFinal :=
          if !snap4.streaming then
            { s2 with snapshotData := eraseA tickerId s2.snapshotData }
          else
            { s2 with snapshotData := insertA tickerId snap4 s2.snapshotData }
        (sFinal, some snap3)
      else
        ({ s with snapshotData := insertA tickerId snap1 s.snapshotData }, none)

/-- `DBL_MAX`, the sentinel the IB API uses for "field unavailable" in
option model ticks, as an exact rational: the integer `(2^53 - 1) * 2^971`,
written as a plain numeral so that it evaluates by kernel reduction
(see `DBL_MAX_eq`). -/
def DBL_MAX : ℚ := 179769313486231570814527423731704356798070567525844996598917476803157260780028538760589558632766878171540458953514382464234321326889464182768467546703537516986049910576551282076245490090389328944075868508455133942304583236903222948165808559332123348274797826204144723168738177180919299881250404026184124858368

theorem DBL_MAX_eq : DBL_MAX = ((2 : ℚ) ^ 53 - 1) * 2 ^ 971 := by
  norm_num [DBL_MAX]

/-- The greeks-fill block of `tickOptionComputation` (step 4): each field
equal to `DBL_MAX` is stored as `0.0`, every other field is stored as
sent, and `hasGreeks` is set. -/
def greeksMerge (snap : MarketSnapshot)
    (impliedVol delta optPrice gamma vega theta undPrice : ℚ) :
    MarketSnapshot :=
  { snap with
    impliedVol := if impliedVol = DBL_MAX then 0 else impliedVol
    delta := if delta = DBL_MAX then 0 else delta
    gamma := if gamma = DBL_MAX then 0 else gamma
    vega := if vega = DBL_MAX then 0 else vega
    theta := if theta = DBL_MAX then 0 else theta
    optPrice := if optPrice = DBL_MAX then 0 else optPrice
    undPrice := if undPrice = DBL_MAX then 0 else undPrice
    hasGreeks := true }

/-- `IBWrapperBase::tickOptionComputation`.  Step 1 drops updates whose six
model fields are all `DBL_MAX`; step 2 drops partial updates missing
`delta` or `optPrice`; step 4 merges the greeks into the snapshot (if one
is registered and not in `QUOTES_ONLY` mode) and runs the readiness check
as in `tickPrice` (without the midpoint synthesis).  `pvDividend` is
accepted by the callback but never stored.  Returns the updated state and
the delivered snapshot, if any. -/
def tickOptionComputation (s : IBWrapperState) (tickerId : Int)
    (impliedVol delta optPrice pvDividend gamma vega theta undPrice : ℚ) :
    IBWrapperState × Option MarketSnapshot :=
  if impliedVol = DBL_MAX ∧ delta = DBL_MAX ∧ gamma = DBL_MAX ∧
      vega = DBL_MAX ∧ theta = DBL_MAX ∧ optPrice = DBL_MAX then (s, none)
  else if delta = DBL_MAX ∨ optPrice = DBL_MAX then (s, none)
  else
    match lookupA tickerId s.snapshotData with
    | none => (s, none)
    | some snap0 =>
      if snap0.mode = PriceType.QUOTES_ONLY then (s, none)
      else
        let snap1 :=
          greeksMerge snap0 impliedVol delta optPrice gamma vega theta undPrice
        if !snap1.fulfilled && snap1.readyForFulfill then
          let snap2 := { snap1 with fulfilled := true }
          let s1 := (fulfillPromise s tickerId marketSnapshotTag snap2).1
          let doCancel := !snap2.streaming && !snap2.cancelled
          let s2 :=
            if doCancel then
              { s1 with
                cancelMktDataCalls := tickerId :: s1.cancelMktDataCalls }
            else s1
          let snap3 :=
            if doCancel then { snap2 with cancelled := true } else snap2
          let sFinal :=
            if !snap3.streaming then
              { s2 with snapshotData := eraseA tickerId s2.snapshotData }
            else
              { s2 with snapshotData := insertA tickerId snap3 s2.snapshotData }
          (sFinal, some snap2)
        else
          ({ s with snapshotData := insertA tickerId snap1 s.snapshotData },
            none)

/-! ### Claim theorems -/

/-- Claim C1, counterexample: `getSync` on the empty wrapper state with
request id 42 and no delivery during the wait fails with the timeout
throw, yet `genericPromises` still contains 42 afterwards — contradicting
the claim that the registration is removed on timeout. -/
theorem claim_C1_counterexample :
    (getSyncW { } 42 0 []).outcome = GetSyncOutcome.timeoutThrow ∧
    containsA 42 (getSyncW { } 42 0 []).finalState.genericPromises = true := by
  decide

/-- Claim C1, amended: when no delivery arrives during the wait,
`IBWrapperBase::getSync` fails with the timeout throw and
`IBBaseWrapper::getSync` blocks forever (it has no bounded wait), and in
both variants the registration for the request id is left behind in
`genericPromises` — it is not removed. -/
theorem claim_C1_timeout_leaves_entry :
    ∀ (s : IBWrapperState) (reqId : Int) (ty : Nat),
      (getSyncW s reqId ty []).outcome = GetSyncOutcome.timeoutThrow ∧
      containsA reqId (getSyncW s reqId ty []).finalState.genericPromises = true ∧
      (IBBaseWrapper.getSyncW s reqId ty []).2
        = IBBaseWrapper.GetSyncOutcome.blocksForever ∧
      containsA reqId (IBBaseWrapper.getSyncW s reqId ty []).1.genericPromises
        = true := by
  intro s reqId ty
  have hch : ((getSyncRegistered s reqId ty).channels)[s.channels.length]?
      = some { tyTag := ty, value := none } := by
    simp [getSyncRegistered, createPromise]
  refine ⟨?_, ?_, ?_, ?_⟩ <;>
    simp [getSyncW, IBBaseWrapper.getSyncW, hch, getSyncRegistered, createPromise,
      containsA_insertA_self]

/-- Claim C2: `readyForFulfill` follows the mode-keyed predicates — LAST
iff `last > 0`, BID iff `bid > 0`, ASK iff `ask > 0`, QUOTES_ONLY iff
`bid > 0 ∧ ask > 0`, SNAPSHOT iff `bid > 0 ∨ ask > 0` when model data is
present and `bid > 0 ∧ ask > 0` otherwise; in particular a SNAPSHOT record
with no model data and only `bid = 1.50` is not ready, and becomes ready
once `ask = 1.55` arrives. -/
theorem claim_C2_readiness_predicates :
    (∀ s : MarketSnapshot,
      (({ s with mode := PriceType.LAST } : MarketSnapshot).readyForFulfill = true
        ↔ 0 < s.last) ∧
      (({ s with mode := PriceType.BID } : MarketSnapshot).readyForFulfill = true
        ↔ 0 < s.bid) ∧
      (({ s with mode := PriceType.ASK } : MarketSnapshot).readyForFulfill = true
        ↔ 0 < s.ask) ∧
      (({ s with mode := PriceType.QUOTES_ONLY } : MarketSnapshot).readyForFulfill = true
        ↔ 0 < s.bid ∧ 0 < s.ask) ∧
      (({ s with mode := PriceType.SNAPSHOT } : MarketSnapshot).readyForFulfill = true
        ↔ if s.hasGreeks = true then 0 < s.bid ∨ 0 < s.ask
          else 0 < s.bid ∧ 0 < s.ask)) ∧
    ({ mode := PriceType.SNAPSHOT, bid := 3/2 } : MarketSnapshot).readyForFulfill
      = false ∧
    ({ mode := PriceType.SNAPSHOT, bid := 3/2, ask := 31/20 } : MarketSnapshot).readyForFulfill
      = true := by
  refine ⟨fun s => ?_, ?_, ?_⟩
  · cases s with
    | mk bid ask last openPrice close high low iv d g ve th op up hg mode ful can str =>
      cases hg <;>
        simp [MarketSnapshot.readyForFulfill]
  · norm_num [MarketSnapshot.readyForFulfill]
  · norm_num [MarketSnapshot.readyForFulfill]

/-- Claim C3 (code bug): a GREEKS_ONLY (MODEL_ONLY) record whose
`hasGreeksData` validity check passes — model-data flag set, implied
volatility, model price and delta all valid — is still reported not ready:
the `switch` in `readyForFulfill` has no `GREEKS_ONLY` case and falls
through to `default: return false`, so for every GREEKS_ONLY record
readiness is `false`, contrary to the claim and to the enum's own
documentation. -/
theorem claim_C3_greeks_only_never_ready :
    ({ mode := PriceType.GREEKS_ONLY, hasGreeks := true, impliedVol := 1, optPrice := 2,
       delta := 1 } : MarketSnapshot).hasGreeksData = true ∧
    ({ mode := PriceType.GREEKS_ONLY, hasGreeks := true, impliedVol := 1, optPrice := 2,
       delta := 1 } : MarketSnapshot).readyForFulfill = false ∧
    ∀ s : MarketSnapshot,
      ({ s with mode := PriceType.GREEKS_ONLY } : MarketSnapshot).readyForFulfill
        = false := by
  refine ⟨by decide, by decide, fun s => rfl⟩

/-- Claim C4: delivery is at most once — after a `fulfillPromise` call for
an id returns the `delivered` outcome with resulting state `s'`, any
further `fulfillPromise` call for the same id (any expected type, any
value) is the logged `noPromise` no-op: it leaves the state (and in
particular every delivery channel) unchanged and does not reach the
throwing `set_value` path. -/
theorem claim_C4_at_most_once :
    ∀ (s s' : IBWrapperState) (reqId : Int) (ty ty' : Nat) (v v' : MarketSnapshot),
      fulfillPromise s reqId ty v = (s', FulfillOutcome.delivered) →
      fulfillPromise s' reqId ty' v' = (s', FulfillOutcome.noPromise) := by
  intro s s' reqId ty ty' v v' h
  have hgp : s'.genericPromises = eraseA reqId s.genericPromises := by
    unfold fulfillPromise at h
    cases hl : lookupA reqId s.genericPromises with
    | none => rw [hl] at h; simp at h
    | some idx =>
      rw [hl] at h
      dsimp only at h
      cases hc : s.channels[idx]? with
      | none => rw [hc] at h; simp at h
      | some ch =>
        rw [hc] at h
        by_cases ht : ch.tyTag ≠ ty
        · simp [ht] at h
        · cases hv : ch.value with
          | some w => simp [ht, hv] at h
          | none =>
            simp only [ht, if_false, hv, if_neg, ite_false] at h
            simp at h
            subst h
            rfl
  have hl' : lookupA reqId s'.genericPromises = none := by
    rw [hgp]; exact lookupA_eraseA_self reqId s.genericPromises
  unfold fulfillPromise
  rw [hl']

/-- Claim C4, witness: a concrete first delivery for id 7 followed by a
second attempt, which is the `noPromise` no-op on the unchanged state. -/
theorem claim_C4_w :
    fulfillPromise
        { channels := [{ tyTag := 0 }], genericPromises := [(7, 0)] } 7 0 { bid := 1 }
      = ({ channels := [{ tyTag := 0, value := some { bid := 1 } }],
            genericPromises := [] }, FulfillOutcome.delivered) ∧
    fulfillPromise
        { channels := [{ tyTag := 0, value := some { bid := 1 } }], genericPromises := [] }
        7 0 { bid := 1 }
      = ({ channels := [{ tyTag := 0, value := some { bid := 1 } }],
            genericPromises := [] }, FulfillOutcome.noPromise) :=
  ⟨by decide,
    claim_C4_at_most_once
      { channels := [{ tyTag := 0 }], genericPromises := [(7, 0)] }
      { channels := [{ tyTag := 0, value := some { bid := 1 } }], genericPromises := [] }
      7 0 0 { bid := 1 } { bid := 1 } (by decide)⟩

/-- Claim C5: in every `getSync` execution, registration happens strictly
before the send (trace positions 0 and 1), the state handed to the send
already contains the request id in `genericPromises`, and a
`fulfillPromise` for that id against the at-send state is never the
`noPromise` drop. -/
theorem claim_C5_register_before_send :
    ∀ (s : IBWrapperState) (reqId : Int) (ty : Nat) (dw : List FulfillCall),
      (getSyncW s reqId ty dw).trace.take 2
        = [BridgeStep.registered reqId, BridgeStep.sent reqId] ∧
      containsA reqId (getSyncRegistered s reqId ty).genericPromises = true ∧
      ∀ (ty' : Nat) (v : MarketSnapshot),
        (fulfillPromise (getSyncRegistered s reqId ty) reqId ty' v).2
          ≠ FulfillOutcome.noPromise := by
  intro s reqId ty dw
  refine ⟨?_, ?_, ?_⟩
  · simp only [getSyncW]
    split <;> rfl
  · exact containsA_insertA_self reqId s.channels.length s.genericPromises
  · intro ty' v
    have hl : lookupA reqId (getSyncRegistered s reqId ty).genericPromises
        = some s.channels.length := by
      simp [getSyncRegistered, createPromise, lookupA_insertA_self]
    simp only [fulfillPromise, hl]
    cases hc : (getSyncRegistered s reqId ty).channels[s.channels.length]? with
    | none => simp
    | some ch =>
      by_cases ht : ch.tyTag ≠ ty' <;> cases hv : ch.value <;> simp [ht, hv]

/-- Claim C5, witness: the property at the empty state, id 42, with a
matching fulfill attempt at the send point. -/
theorem claim_C5_w :
    (getSyncW { } 42 0 []).trace.take 2
      = [BridgeStep.registered 42, BridgeStep.sent 42] ∧
    containsA 42 (getSyncRegistered { } 42 0).genericPromises = true ∧
    (fulfillPromise (getSyncRegistered { } 42 0) 42 0 { bid := 1 }).2
      ≠ FulfillOutcome.noPromise :=
  ⟨(claim_C5_register_before_send { } 42 0 []).1,
    (claim_C5_register_before_send { } 42 0 []).2.1,
    (claim_C5_register_before_send { } 42 0 []).2.2 0 { bid := 1 }⟩

/-- Claim C6, counterexample: registering id 7 twice raises no error at
all — the second `createPromise` silently replaces the table entry (7 now
maps to channel 1, not 0), and a subsequent delivery through the table
reaches only the second channel, so the first caller's channel can never
be fulfilled. -/
theorem claim_C6_counterexample :
    createPromise { } 7 0
      = ({ channels := [{ tyTag := 0 }], genericPromises := [(7, 0)] }, 0) ∧
    createPromise { channels := [{ tyTag := 0 }], genericPromises := [(7, 0)] } 7 0
      = ({ channels := [{ tyTag := 0 }, { tyTag := 0 }],
            genericPromises := [(7, 1)] }, 1) ∧
    (fulfillPromise
        { channels := [{ tyTag := 0 }, { tyTag := 0 }], genericPromises := [(7, 1)] }
        7 0 { bid := 1 }).1.channels
      = [{ tyTag := 0 }, { tyTag := 0, value := some { bid := 1 } }] := by
  refine ⟨by decide, by decide, by decide⟩

/-- Claim C6, amended: `createPromise` performs no duplicate detection —
when the id is already registered (mapped to some live channel `i`), a
second registration silently overwrites the dispatch-table entry with the
fresh channel index, which differs from `i`. -/
theorem claim_C6_silent_overwrite :
    ∀ (s : IBWrapperState) (reqId : Int) (ty : Nat) (i : Nat),
      lookupA reqId s.genericPromises = some i →
      i < s.channels.length →
      lookupA reqId (createPromise s reqId ty).1.genericPromises
          = some s.channels.length ∧
      s.channels.length ≠ i := by
  intro s reqId ty i hl hi
  exact ⟨lookupA_insertA_self reqId s.channels.length s.genericPromises, by omega⟩

/-- Claim C6, witness: the amended statement at the one-entry state. -/
theorem claim_C6_w :
    lookupA 7 ([(7, 0)] : List (Int × Nat)) = some 0 ∧
    (0 : Nat) < 1 ∧
    lookupA 7 (createPromise
        { channels := [{ tyTag := 0 }], genericPromises := [(7, 0)] } 7 0).1.genericPromises
      = some 1 ∧
    (1 : Nat) ≠ 0 :=
  ⟨by decide, by decide,
    (claim_C6_silent_overwrite
      { channels := [{ tyTag := 0 }], genericPromises := [(7, 0)] } 7 0 0
      (by decide) (by decide)).1,
    (claim_C6_silent_overwrite
      { channels := [{ tyTag := 0 }], genericPromises := [(7, 0)] } 7 0 0
      (by decide) (by decide)).2⟩

/-- Claim C8: readiness is monotone under merges — for a record that is
ready, merging a positive price tick (any field) keeps it ready, and
merging an option-model update (which can only set fields and flip
`hasGreeks` to true) keeps it ready, in every mode. -/
theorem claim_C8_readiness_monotone :
    ∀ (snap : MarketSnapshot) (field : TickType) (price : ℚ)
      (iv d op g v th u : ℚ),
      snap.readyForFulfill = true →
      (0 < price → (tickPriceMerge snap field price).readyForFulfill = true) ∧
      (greeksMerge snap iv d op g v th u).readyForFulfill = true := by
  rintro ⟨bid, ask, last, openPrice, close, high, low, ivf, df, gf, vf, tf, opf, upf,
    hg, mode, ful, can, str⟩ field price iv d op g v th u hready
  constructor
  · intro hp
    cases field <;> cases mode <;> cases hg <;>
      simp_all [tickPriceMerge, MarketSnapshot.readyForFulfill]
  · cases mode <;> cases hg <;>
      simp_all [greeksMerge, MarketSnapshot.readyForFulfill]

/-- Claim C8, witness: a ready LAST-mode record stays ready after a bid
price tick and after a greeks merge. -/
theorem claim_C8_w :
    ({ mode := PriceType.LAST, last := 1 } : MarketSnapshot).readyForFulfill = true ∧
    (0 : ℚ) < 2 ∧
    (tickPriceMerge { mode := PriceType.LAST, last := 1 } TickType.BID 2).readyForFulfill
      = true ∧
    (greeksMerge { mode := PriceType.LAST, last := 1 } 1 1 2 1 1 1 1).readyForFulfill
      = true :=
  ⟨by decide, by norm_num,
    (claim_C8_readiness_monotone { mode := PriceType.LAST, last := 1 } TickType.BID 2
      1 1 2 1 1 1 1 (by decide)).1 (by norm_num),
    (claim_C8_readiness_monotone { mode := PriceType.LAST, last := 1 } TickType.BID 2
      1 1 2 1 1 1 1 (by decide)).2⟩

/-- Claim C9, counterexample: `nextValidId` adopts a fresh announcement
`a = 10` as-is — the counter becomes 10, not at least `a + 1 = 11`; and
the `IBBaseWrapper` variant assigns unconditionally, regressing the
counter from 10 to 3 on a stale announcement. -/
theorem claim_C9_counterexample :
    (nextValidId { nextValidOrderId := 0 } 10).nextValidOrderId = 10 ∧
    (nextValidId { nextValidOrderId := 0 } 10).nextValidOrderId < 10 + 1 ∧
    (IBBaseWrapper.nextValidId { nextValidOrderId := 10 } 3).nextValidOrderId = 3 ∧
    (IBBaseWrapper.nextValidId { nextValidOrderId := 10 } 3).nextValidOrderId < 10 := by
  decide

/-- Claim C9, amended: `nextOrderId` returns the pre-increment counter and
successive calls yield strictly increasing ids;
`IBWrapperBase::nextValidId a` sets the counter to `max a (current + 1)` —
at least `a`, strictly above the current value, never regressing — while
`IBBaseWrapper::nextValidId` assigns `a` unconditionally (and can
regress). -/
theorem claim_C9_id_allocator :
    ∀ (s : IBWrapperState) (a : Int),
      (nextOrderId s).1 = s.nextValidOrderId ∧
      (nextOrderId s).2.nextValidOrderId = s.nextValidOrderId + 1 ∧
      (nextOrderId (nextOrderId s).2).1 = s.nextValidOrderId + 1 ∧
      (nextOrderId s).1 < (nextOrderId (nextOrderId s).2).1 ∧
      (nextValidId s a).nextValidOrderId = max a (s.nextValidOrderId + 1) ∧
      a ≤ (nextValidId s a).nextValidOrderId ∧
      s.nextValidOrderId < (nextValidId s a).nextValidOrderId ∧
      (IBBaseWrapper.nextValidId s a).nextValidOrderId = a := by
  intro s a
  refine ⟨rfl, rfl, rfl, by simp [nextOrderId], ?_, ?_, ?_, rfl⟩ <;>
    · simp only [nextValidId]
      split <;> omega

/-- Claim C7, counterexample: a registered SNAPSHOT record holds a prior
`gamma = 3`; an option-model tick with valid `impliedVol`, `delta` and
`optPrice` but `gamma = DBL_MAX` (and the other optional fields sentinel)
is accepted, and the merge stores the sentinel `gamma` as the literal `0`,
overwriting the prior value `3` — contradicting the claim that a sentinel
field leaves the prior value unchanged and is never stored as a literal
zero. -/
theorem claim_C7_counterexample :
    (lookupA 1 ({ snapshotData :=
        [(1, { mode := PriceType.SNAPSHOT, gamma := 3, hasGreeks := true })] }
        : IBWrapperState).snapshotData).map MarketSnapshot.gamma = some 3 ∧
    (lookupA 1 (tickOptionComputation
        { snapshotData :=
            [(1, { mode := PriceType.SNAPSHOT, gamma := 3, hasGreeks := true })] }
        1 1 1 2 0 DBL_MAX DBL_MAX DBL_MAX DBL_MAX).1.snapshotData).map
      MarketSnapshot.gamma = some 0 ∧
    (3 : ℚ) ≠ 0 := by
  refine ⟨by decide, by decide, by decide⟩

/-- Claim C7, amended: a price tick carrying a non-positive price is
dropped entirely (state unchanged, nothing delivered, so readiness cannot
change); an option-model tick whose six model fields are all `DBL_MAX`, or
whose `delta` or `optPrice` is `DBL_MAX`, is likewise dropped entirely;
but in an accepted model tick every remaining field carrying the `DBL_MAX`
sentinel is stored as the literal `0.0`, overwriting the field's prior
value rather than leaving it unchanged. -/
theorem claim_C7_sentinel_handling :
    ∀ (s : IBWrapperState) (tickerId : Int) (field : TickType) (price : ℚ)
      (iv d op pv g v th u : ℚ) (snap : MarketSnapshot),
      (price ≤ 0 → tickPrice s tickerId field price = (s, none)) ∧
      (iv = DBL_MAX → d = DBL_MAX → g = DBL_MAX → v = DBL_MAX → th = DBL_MAX →
        op = DBL_MAX →
        tickOptionComputation s tickerId iv d op pv g v th u = (s, none)) ∧
      (d = DBL_MAX ∨ op = DBL_MAX →
        tickOptionComputation s tickerId iv d op pv g v th u = (s, none)) ∧
      (iv = DBL_MAX → (greeksMerge snap iv d op g v th u).impliedVol = 0) ∧
      (g = DBL_MAX → (greeksMerge snap iv d op g v th u).gamma = 0) ∧
      (v = DBL_MAX → (greeksMerge snap iv d op g v th u).vega = 0) ∧
      (th = DBL_MAX → (greeksMerge snap iv d op g v th u).theta = 0) ∧
      (u = DBL_MAX → (greeksMerge snap iv d op g v th u).undPrice = 0) := by
  intro s tickerId field price iv d op pv g v th u snap
  refine ⟨fun hp => ?_, fun h1 h2 h3 h4 h5 h6 => ?_, fun hor => ?_,
    fun h => ?_, fun h => ?_, fun h => ?_, fun h => ?_, fun h => ?_⟩
  · simp [tickPrice, hp]
  · simp [tickOptionComputation, h1, h2, h3, h4, h5, h6]
  · by_cases hall : iv = DBL_MAX ∧ d = DBL_MAX ∧ g = DBL_MAX ∧ v = DBL_MAX ∧
        th = DBL_MAX ∧ op = DBL_MAX
    · simp [tickOptionComputation, hall]
    · simp only [tickOptionComputation, if_neg hall]
      simp [hor]
  · simp [greeksMerge, h]
  · simp [greeksMerge, h]
  · simp [greeksMerge, h]
  · simp [greeksMerge, h]
  · simp [greeksMerge, h]

/-- Claim C7, witness: the amended statement at a zero-price tick and an
all-sentinel model tick on the empty state, plus an accepted merge whose
sentinel `gamma` is stored as zero. -/
theorem claim_C7_w :
    tickPrice { } 1 TickType.BID 0 = ({ }, none) ∧
    tickOptionComputation { } 1 DBL_MAX DBL_MAX DBL_MAX 0 DBL_MAX DBL_MAX DBL_MAX DBL_MAX
      = ({ }, none) ∧
    (greeksMerge { } DBL_MAX DBL_MAX DBL_MAX DBL_MAX DBL_MAX DBL_MAX DBL_MAX).gamma
      = 0 :=
  ⟨(claim_C7_sentinel_handling { } 1 TickType.BID 0 DBL_MAX DBL_MAX DBL_MAX 0 DBL_MAX
      DBL_MAX DBL_MAX DBL_MAX { }).1 (by norm_num),
    (claim_C7_sentinel_handling { } 1 TickType.BID 0 DBL_MAX DBL_MAX DBL_MAX 0 DBL_MAX
      DBL_MAX DBL_MAX DBL_MAX { }).2.1 rfl rfl rfl rfl rfl rfl,
    (claim_C7_sentinel_handling { } 1 TickType.BID 0 DBL_MAX DBL_MAX DBL_MAX 0 DBL_MAX
      DBL_MAX DBL_MAX DBL_MAX { }).2.2.2.2.1 rfl⟩

/-- Claim C10: when a price tick delivers a snapshot (the readiness branch
of `tickPrice` fires), the delivered value's `last` is the midpoint
`(bid + ask) / 2` of the merged record whenever no positive last price was
observed (`last ≤ 0`) and both sides are positive (`hasBidAsk`), and it is
the merged record's own `last`, unchanged, whenever a positive last was
observed. -/
theorem claim_C10_midpoint_synthesis :
    ∀ (s : IBWrapperState) (tickerId : Int) (field : TickType) (price : ℚ)
      (snap0 v : MarketSnapshot),
      lookupA tickerId s.snapshotData = some snap0 →
      (tickPrice s tickerId field price).2 = some v →
      ((tickPriceMerge snap0 field price).last ≤ 0 →
        (tickPriceMerge snap0 field price).hasBidAsk = true →
        v.last = ((tickPriceMerge snap0 field price).bid
          + (tickPriceMerge snap0 field price).ask) / 2) ∧
      (0 < (tickPriceMerge snap0 field price).last →
        v.last = (tickPriceMerge snap0 field price).last) := by
  intro s tickerId field price snap0 v hl hv
  unfold tickPrice at hv
  by_cases hp : price ≤ 0
  · rw [if_pos hp] at hv
    simp at hv
  · rw [if_neg hp, hl] at hv
    dsimp only at hv
    by_cases hready : (!(tickPriceMerge snap0 field price).fulfilled
        && (tickPriceMerge snap0 field price).readyForFulfill) = true
    · rw [if_pos hready] at hv
      dsimp only at hv
      rw [Option.some_inj] at hv
      subst hv
      constructor
      · intro h1 h2
        have hcond : (decide ((tickPriceMerge snap0 field price).last ≤ 0)
            && (tickPriceMerge snap0 field price).hasBidAsk) = true := by
          simp [h1, h2]
        simp only [hcond, if_true]
      · intro h
        have hcond : (decide ((tickPriceMerge snap0 field price).last ≤ 0)
            && (tickPriceMerge snap0 field price).hasBidAsk) = false := by
          simp [not_le.mpr h]
        simp only [hcond, Bool.false_eq_true, if_false]
    · rw [if_neg hready] at hv
      simp at hv

/-- Claim C10, witness: a QUOTES_ONLY record with `bid = 1` receives an
ask tick of `2`; the delivered snapshot's `last` is the midpoint
`(1 + 2) / 2`. -/
theorem claim_C10_w :
    lookupA 9 ({ snapshotData := [(9, { mode := PriceType.QUOTES_ONLY, bid := 1 })] }
        : IBWrapperState).snapshotData
      = some { mode := PriceType.QUOTES_ONLY, bid := 1 } ∧
    (tickPrice { snapshotData := [(9, { mode := PriceType.QUOTES_ONLY, bid := 1 })] }
        9 TickType.ASK 2).2
      = some { mode := PriceType.QUOTES_ONLY, bid := 1, ask := 2, last := 3/2,
                 fulfilled := true } ∧
    ({ mode := PriceType.QUOTES_ONLY, bid := 1, ask := 2, last := 3/2,
       fulfilled := true } : MarketSnapshot).last = (1 + 2) / 2 :=
  ⟨by decide,
    by norm_num [tickPrice, tickPriceMerge, lookupA, insertA, eraseA, fulfillPromise,
      MarketSnapshot.readyForFulfill, MarketSnapshot.hasBidAsk, marketSnapshotTag],
    (claim_C10_midpoint_synthesis
      { snapshotData := [(9, { mode := PriceType.QUOTES_ONLY, bid := 1 })] }
      9 TickType.ASK 2 { mode := PriceType.QUOTES_ONLY, bid := 1 }
      { mode := PriceType.QUOTES_ONLY, bid := 1, ask := 2, last := 3/2,
         fulfilled := true }
      (by decide)
      (by norm_num [tickPrice, tickPriceMerge, lookupA, insertA, eraseA, fulfillPromise,
        MarketSnapshot.readyForFulfill, MarketSnapshot.hasBidAsk, marketSnapshotTag])).1
      (by decide) (by decide)⟩

end IBW
